import Mathlib

/-
Verification of the drow dynamic loader (Rust) against its specification.

The Rust sources under src/ are embedded shallowly:
* machine integers (u8/u16/u32/u64/i32/i64) become Nat/Int with explicit
  two's-complement conversion where overflow or signedness matters;
* the seekable byte stream consumed by the ELF parser becomes a ByteReader
  (a list of bytes plus a position);
* fallible Rust code (Result, panics, out-of-range slice indexing) becomes
  Except String;
* HashMap String V becomes the function space String -> Option V where only
  lookup is needed, and an association list where insertion order matters;
* I/O-bound collaborators (the filesystem, mmap, the ifunc resolver call)
  become explicit function parameters.
-/

/-! ## Data model (src/src/elf.rs) -/

/-- ELF header, from struct Elf64Header in src/src/elf.rs.  All unsigned
fields are Nat; e_ident is the 16-byte identification array. -/
structure Elf64Header where
  e_ident : List Nat
  e_type : Nat
  e_machine : Nat
  e_version : Nat
  e_entry : Nat
  e_program_header_offset : Nat
  e_section_header_offset : Nat
  e_flags : Nat
  e_elf_header_size : Nat
  e_program_header_entry_size : Nat
  e_program_header_entries : Nat
  e_section_header_entry_size : Nat
  e_section_header_entries : Nat
  e_section_name_string_table_index : Nat
deriving DecidableEq

/-- Program header, from struct Elf64ProgramHeader in src/src/elf.rs. -/
structure Elf64ProgramHeader where
  p_type : Nat
  p_flags : Nat
  p_offset : Nat
  p_virtual_address : Nat
  p_physical_address : Nat
  p_file_size : Nat
  p_memory_size : Nat
  p_align : Nat
deriving DecidableEq

/-- Section header, from struct Elf64SectionHeader in src/src/elf.rs. -/
structure Elf64SectionHeader where
  sh_name : Nat
  sh_type : Nat
  sh_flags : Nat
  sh_virtual_address : Nat
  sh_offset : Nat
  sh_size : Nat
  sh_link : Nat
  sh_info : Nat
  sh_address_align : Nat
  sh_entry_size : Nat
deriving DecidableEq

/-- Resolved symbol-table entry, from struct Elf64ResolvedSymbolTableEntry
in src/src/elf.rs. -/
structure Elf64ResolvedSymbolTableEntry where
  symbol_name : String
  binding : Nat
  symbol_type : Nat
  section_index : Nat
  value : Nat
  size : Nat
deriving DecidableEq

/-- Resolved relocation entry, from struct Elf64ResolvedRelocationAddend in
src/src/elf.rs.  The addend field is an i32 in Rust, embedded as Int. -/
structure Elf64ResolvedRelocationAddend where
  symbol_name : String
  symbol_index : Nat
  relocation_type : Nat
  offset : Nat
  addend : Int
deriving DecidableEq

/-- Derived dynamic-section record, from struct Elf64Dynamic in
src/src/dynamic.rs. -/
structure Elf64Dynamic where
  required_libraries : List String
  init_function : Nat
  init_array : Nat
  init_array_size : Nat
deriving DecidableEq

/-- Parsed ELF image, from struct Elf64Metadata in src/src/elf.rs, plus the
file_path and dynamic fields used by src/src/loader.rs (the crate-root draft
that attaches them is not under src/; the fields are as the loader and the
spec describe them). -/
structure Elf64Metadata where
  file_path : String
  elf_header : Elf64Header
  program_headers : List Elf64ProgramHeader
  section_headers : List Elf64SectionHeader
  symbol_table : List Elf64ResolvedSymbolTableEntry
  dynamic_symbol_table : List Elf64ResolvedSymbolTableEntry
  relocations : List Elf64ResolvedRelocationAddend
  dynamic : Elf64Dynamic
deriving DecidableEq

/-! ## Dependency resolver (src/src/loader.rs, DependenciesResolver) -/

namespace DependenciesResolver

/-- DependenciesResolver::add_front from src/src/loader.rs: push every
element of the vector to the front of the queue, in vector order.  The queue
is a list whose head is the front. -/
def add_front (queue : List Elf64Metadata) (vector : List Elf64Metadata) :
    List Elf64Metadata :=
  vector.foldl (fun q entry => entry :: q) queue

/-- The while-let loop of DependenciesResolver::resolve_in_loading_order
(src/src/loader.rs lines 143-147).  deps abstracts the I/O-bound
resolve_direct_dependencies (library-cache lookup, LD_LIBRARY_PATH search
and file parsing); it is stable across calls because those lookups are
deterministic for a fixed filesystem.  libraries is the intermediate deque
(head = front); fuel bounds the number of loop iterations, with none
returned on exhaustion (the Rust loop does not terminate on cyclic graphs).
-/
def resolveLoop (deps : Elf64Metadata → List Elf64Metadata) :
    Nat → List Elf64Metadata → List Elf64Metadata →
    Option (List Elf64Metadata)
  | _, [], libraries => some libraries
  | 0, _ :: _, _ => none
  | fuel + 1, entry :: rest, libraries =>
    resolveLoop deps fuel (add_front rest (deps entry)) (entry :: libraries)

/-- The deduplication sweep at the end of resolve_in_loading_order
(src/src/loader.rs lines 148-155): keep the first occurrence of each
file_path, scanning front to back. -/
def dedupByPath (seen : List String) :
    List Elf64Metadata → List Elf64Metadata
  | [] => []
  | x :: xs =>
    if x.file_path ∈ seen then dedupByPath seen xs
    else x :: dedupByPath (x.file_path :: seen) xs

/-- DependenciesResolver::resolve_in_loading_order from src/src/loader.rs
lines 137-157.  The intermediate deque starts as [root] (push_back), the
queue is seeded with root's direct dependencies pushed to the front, and
the loop prepends each popped entry before enqueueing its dependencies. -/
def resolve_in_loading_order (deps : Elf64Metadata → List Elf64Metadata)
    (fuel : Nat) (elf_metadata : Elf64Metadata) :
    Option (List Elf64Metadata) :=
  (resolveLoop deps fuel (add_front [] (deps elf_metadata)) [elf_metadata]).map
    (dedupByPath [])

end DependenciesResolver

/-! ## Concrete diamond dependency graph for the load-order claims -/

/-- A placeholder ELF header for images whose header content is irrelevant
to the resolver. -/
def emptyHeader : Elf64Header :=
  { e_ident := [], e_type := 0, e_machine := 0, e_version := 0, e_entry := 0,
    e_program_header_offset := 0, e_section_header_offset := 0, e_flags := 0,
    e_elf_header_size := 0, e_program_header_entry_size := 0,
    e_program_header_entries := 0, e_section_header_entry_size := 0,
    e_section_header_entries := 0, e_section_name_string_table_index := 0 }

/-- An image consisting only of a file path; all parsed content is empty. -/
def mkImage (path : String) : Elf64Metadata :=
  { file_path := path, elf_header := emptyHeader, program_headers := [],
    section_headers := [], symbol_table := [], dynamic_symbol_table := [],
    relocations := [],
    dynamic := { required_libraries := [], init_function := 0,
                 init_array := 0, init_array_size := 0 } }

def imgA : Elf64Metadata := mkImage "A"
def imgB : Elf64Metadata := mkImage "B"
def imgC : Elf64Metadata := mkImage "C"
def imgD : Elf64Metadata := mkImage "D"

/-- The dependency graph A -> (B, C), B -> (D), C -> (D), D -> (). -/
def diamondDeps (m : Elf64Metadata) : List Elf64Metadata :=
  if m.file_path = "A" then [imgB, imgC]
  else if m.file_path = "B" then [imgD]
  else if m.file_path = "C" then [imgD]
  else []

/-! ## Relocation constants and symbol predicates -/

/-- RELOCATION_X86_64_NONE from src/src/elf.rs. -/
def RELOCATION_X86_64_NONE : Nat := 0

/-- RELOCATION_X86_64_64 from src/src/elf.rs. -/
def RELOCATION_X86_64_64 : Nat := 1

/-- RELOCATION_X86_64_COPY from src/src/elf.rs. -/
def RELOCATION_X86_64_COPY : Nat := 5

/-- RELOCATION_X86_64_GLOB_DAT from src/src/elf.rs. -/
def RELOCATION_X86_64_GLOB_DAT : Nat := 6

/-- RELOCATION_X86_64_JUMP_SLOT from src/src/elf.rs. -/
def RELOCATION_X86_64_JUMP_SLOT : Nat := 7

/-- RELOCATION_X86_64_RELATIVE from src/src/elf.rs. -/
def RELOCATION_X86_64_RELATIVE : Nat := 8

/-- Modelled from the spec: RELOCATION_X86_64_IRELATIV is imported by
src/src/loader.rs from the crate root, which is not under src/; spec
section 3 gives IRELATIVE(37). -/
def RELOCATION_X86_64_IRELATIV : Nat := 37

/-- Modelled from the spec: the undefined() predicate on resolved symbols is
defined at the crate root, not under src/; spec section 3 gives
undefined iff section-index = UNDEF(0) and value = 0. -/
def Elf64ResolvedSymbolTableEntry.undefined
    (s : Elf64ResolvedSymbolTableEntry) : Bool :=
  s.section_index == 0 && s.value == 0

/-- Modelled from the spec: the global() predicate (binding = 1) is defined
at the crate root, not under src/. -/
def Elf64ResolvedSymbolTableEntry.global
    (s : Elf64ResolvedSymbolTableEntry) : Bool :=
  s.binding == 1

/-- Modelled from the spec: the weak() predicate (binding = 2) is defined at
the crate root, not under src/. -/
def Elf64ResolvedSymbolTableEntry.weak
    (s : Elf64ResolvedSymbolTableEntry) : Bool :=
  s.binding == 2

/-- Modelled from the spec: the indirect_function() predicate (type =
STT_GNU_IFUNC = 10) is defined at the crate root, not under src/. -/
def Elf64ResolvedSymbolTableEntry.indirect_function
    (s : Elf64ResolvedSymbolTableEntry) : Bool :=
  s.symbol_type == 10

/-! ## Two's-complement arithmetic helpers -/

/-- Reinterpret a u64 bit pattern as an i64 (Rust: value as i64). -/
def toI64 (n : Nat) : Int :=
  if n < 2 ^ 63 then (n : Int) else (n : Int) - 2 ^ 64

/-- Store an i64 value as a u64 bit pattern (the bits written by a 64-bit
store of a signed value). -/
def u64ofInt (x : Int) : Nat :=
  (x % (2 ^ 64 : Int)).toNat

/-- Wrapping u64 addition (Rust release-mode semantics of a + b). -/
def u64add (a b : Nat) : Nat :=
  (a + b) % 2 ^ 64

/-! ## Symbol lookup and the relocation pass (src/src/loader.rs) -/

namespace Elf64Loader

/-- The char-list body of Rust's split on the at sign composed with
trim_matches of NUL: the substring before the first at sign, with leading
and trailing NUL bytes removed.  Mirrors get_symbol's
symbol_name.split at-sign collect()[0].trim_matches NUL
(src/src/loader.rs lines 379-380). -/
def stripVersion (name : String) : String :=
  let before := name.data.takeWhile (fun c => c ≠ '@')
  let trimmed :=
    ((before.dropWhile (fun c => c = Char.ofNat 0)).reverse.dropWhile
      (fun c => c = Char.ofNat 0)).reverse
  String.mk trimmed

/-- Elf64Loader::get_symbol from src/src/loader.rs lines 372-388.  The two
HashMaps (global_symbols, default_global_symbols) are embedded as lookup
functions. -/
def get_symbol (global_symbols : String → Option Elf64ResolvedSymbolTableEntry)
    (default_global_symbols : String → Option Elf64ResolvedSymbolTableEntry)
    (rela : Elf64ResolvedRelocationAddend) :
    Option Elf64ResolvedSymbolTableEntry :=
  match global_symbols rela.symbol_name with
  | some symbol => some symbol
  | none =>
    match default_global_symbols (stripVersion rela.symbol_name) with
    | some symbol => some symbol
    | none => none

/-- A memory effect emitted by the relocation pass: either a 64-bit store of
a value (as a u64 bit pattern) at a byte address, or a memcpy of size bytes
from src to dst. -/
inductive RelocWrite where
  | word (addr : Nat) (value : Nat)
  | copy (dst : Nat) (src : Nat) (size : Nat)
deriving DecidableEq

/-- The body of the relocation loop in Elf64Loader::relocate
(src/src/loader.rs lines 390-460) for a single relocation entry, as the
list of memory writes it performs.  ifunc abstracts the call through the
resolved indirect-function pointer (Rust invokes symbol.value as a
zero-argument function returning u64).  The four if-blocks of the source
are sequential and their type tests are mutually exclusive. -/
def relocateOne (ifunc : Nat → Nat)
    (global_symbols : String → Option Elf64ResolvedSymbolTableEntry)
    (default_global_symbols : String → Option Elf64ResolvedSymbolTableEntry)
    (rela : Elf64ResolvedRelocationAddend) (offset : Nat) :
    List RelocWrite :=
  (if rela.relocation_type = RELOCATION_X86_64_JUMP_SLOT
      ∨ rela.relocation_type = RELOCATION_X86_64_GLOB_DAT then
    match get_symbol global_symbols default_global_symbols rela with
    | some symbol =>
      let value :=
        if symbol.indirect_function then ifunc symbol.value else symbol.value
      [RelocWrite.word (u64add rela.offset offset) value]
    | none => []
  else []) ++
  (if rela.relocation_type = RELOCATION_X86_64_64 then
    match get_symbol global_symbols default_global_symbols rela with
    | some symbol =>
      [RelocWrite.word (u64add rela.offset offset)
        (u64ofInt (toI64 symbol.value + rela.addend))]
    | none => []
  else []) ++
  (if rela.relocation_type = RELOCATION_X86_64_RELATIVE
      ∨ rela.relocation_type = RELOCATION_X86_64_IRELATIV then
    [RelocWrite.word (u64add rela.offset offset)
      (u64ofInt (toI64 offset + rela.addend))]
  else []) ++
  (if rela.relocation_type = RELOCATION_X86_64_COPY then
    match get_symbol global_symbols default_global_symbols rela with
    | some symbol =>
      [RelocWrite.copy (u64add rela.offset offset) symbol.value symbol.size]
    | none => []
  else [])

/-- Elf64Loader::relocate from src/src/loader.rs lines 390-460: the writes
performed for all relocations of an image, in order. -/
def relocate (ifunc : Nat → Nat)
    (global_symbols : String → Option Elf64ResolvedSymbolTableEntry)
    (default_global_symbols : String → Option Elf64ResolvedSymbolTableEntry)
    (elf_metadata : Elf64Metadata) (offset : Nat) : List RelocWrite :=
  (elf_metadata.relocations.map
    (fun rela => relocateOne ifunc global_symbols default_global_symbols
      rela offset)).flatten

end Elf64Loader

/-! ## Byte-stream reader (BufReader over the ELF file) -/

/-- An in-memory seekable byte stream: the file content and the read
position.  Bytes are Nats below 256. -/
structure ByteReader where
  data : List Nat
  pos : Nat
deriving DecidableEq

/-- Rust Read::read_exact of n bytes: returns the bytes and the advanced
reader, or an error when fewer than n bytes remain.  The error text stands
for the Rust formatting of the io::Error debug value. -/
def ByteReader.readExact (r : ByteReader) (n : Nat) :
    Except String (List Nat × ByteReader) :=
  if r.pos + n ≤ r.data.length then
    Except.ok ((r.data.drop r.pos).take n, { r with pos := r.pos + n })
  else Except.error "Unable to read file: failed to fill whole buffer"

/-- Rust read_exact whose Result is dropped (src/src/elf.rs lines 598-600):
the zero-initialised buffer keeps the bytes read so far, the remainder
stays zero, and the loop continues. -/
def ByteReader.readLossy (r : ByteReader) (n : Nat) :
    List Nat × ByteReader :=
  let available := (r.data.drop r.pos).take n
  (available ++ List.replicate (n - available.length) 0,
    { r with pos := min (r.pos + n) r.data.length })

/-- Seek::seek(SeekFrom::Start offset): reposition the reader.  An
in-memory seek to any offset succeeds, as a file seek does. -/
def ByteReader.seek (r : ByteReader) (offset : Nat) : ByteReader :=
  { r with pos := offset }

/-! ## Little-endian field decoding (ptr::read_unaligned on x86-64) -/

/-- Byte i of a buffer (buffers produced by readExact always hold enough
bytes; getD matches the zero-initialised Rust buffer). -/
def leByte (b : List Nat) (i : Nat) : Nat := b.getD i 0

/-- Little-endian u16 at byte offset i. -/
def decodeU16 (b : List Nat) (i : Nat) : Nat :=
  leByte b i + 0x100 * leByte b (i + 1)

/-- Little-endian u32 at byte offset i. -/
def decodeU32 (b : List Nat) (i : Nat) : Nat :=
  decodeU16 b i + 0x10000 * decodeU16 b (i + 2)

/-- Little-endian u64 at byte offset i. -/
def decodeU64 (b : List Nat) (i : Nat) : Nat :=
  decodeU32 b i + 0x100000000 * decodeU32 b (i + 4)

/-- Little-endian i32 at byte offset i, sign-extended. -/
def decodeI32 (b : List Nat) (i : Nat) : Int :=
  let v := decodeU32 b i
  if v < 2 ^ 31 then (v : Int) else (v : Int) - 2 ^ 32

/-- Rust std::str::from_utf8 over raw bytes, as UTF-8 validation plus
decoding. -/
def from_utf8 (bytes : List Nat) : Option String :=
  String.fromUTF8? (ByteArray.mk (Array.mk (bytes.map (fun b => UInt8.ofNat b))))

/-! ## String-table service (src/src/string_tables.rs) -/

/-- string_length from src/src/string_tables.rs: the length of the C string
starting at the head of the buffer, including the terminator.  The Rust
while loop indexes past the end (a panic) when no NUL byte remains, which
the embedding reports as an error. -/
def string_length : List Nat → Except String Nat
  | [] => Except.error "panic: index out of range"
  | b :: rest =>
    if b = 0 then Except.ok 1
    else do
      let n ← string_length rest
      Except.ok (n + 1)

/-- get_string_table_content from src/src/string_tables.rs: seek to the
section's file offset and read sh_size bytes; a short read panics via
expect. -/
def get_string_table_content (section_header : Elf64SectionHeader)
    (r : ByteReader) : Except String (List Nat × ByteReader) :=
  match (r.seek section_header.sh_offset).readExact section_header.sh_size with
  | Except.ok x => Except.ok x
  | Except.error _ => Except.error "panic: Unable to read string table content"

/-! ## Section-type constants (src/src/elf.rs) -/

/-- ELF64_SECTION_HEADER_SYMBOL_TABLE from src/src/elf.rs. -/
def ELF64_SECTION_HEADER_SYMBOL_TABLE : Nat := 2

/-- ELF64_SECTION_HEADER_STRING_TABLE from src/src/elf.rs. -/
def ELF64_SECTION_HEADER_STRING_TABLE : Nat := 3

/-- ELF64_SECTION_HEADER_RELOCATION_ADDEND from src/src/elf.rs. -/
def ELF64_SECTION_HEADER_RELOCATION_ADDEND : Nat := 4

/-- ELF64_SECTION_HEADER_DYNAMIC_SYMBOL_TABLE from src/src/elf.rs. -/
def ELF64_SECTION_HEADER_DYNAMIC_SYMBOL_TABLE : Nat := 11

/-- Modelled from the spec: ELF64_SECTION_HEADER_NO_BITS is imported by
src/src/loader.rs from the crate root, which is not under src/; spec
section 3 gives NOBITS(8). -/
def ELF64_SECTION_HEADER_NO_BITS : Nat := 8

/-- Modelled from the spec: PROGRAM_HEADER_TYPE_LOADABLE is imported by
src/src/loader.rs from the crate root, which is not under src/; spec
section 3 gives LOADABLE(1). -/
def PROGRAM_HEADER_TYPE_LOADABLE : Nat := 1

/-! ## ELF parser (src/src/elf.rs, impl Elf64Metadata) -/

namespace Elf64Metadata

/-- Format a byte as Rust's alternate uppercase hex (the 0x-prefixed form
produced by the error messages of the header checks). -/
def hexDigit (n : Nat) : Char :=
  if n < 10 then Char.ofNat (48 + n) else Char.ofNat (55 + n)

/-- Uppercase hex digits of n, most significant first. -/
def hexChars (n : Nat) : List Char :=
  if _h : n < 16 then [hexDigit n]
  else hexChars (n / 16) ++ [hexDigit (n % 16)]
decreasing_by
  exact Nat.div_lt_self (by omega) (by omega)

/-- The 0x-prefixed uppercase hex rendering of n. -/
def hexFmt (n : Nat) : String :=
  "0x" ++ String.mk (hexChars n)

/-- Elf64Metadata::check_file_ident from src/src/elf.rs lines 439-450. -/
def check_file_ident (header : Elf64Header) : Except String Unit :=
  let m0 := header.e_ident.getD 0 0
  let m1 := header.e_ident.getD 1 0
  let m2 := header.e_ident.getD 2 0
  let m3 := header.e_ident.getD 3 0
  if m0 = 0x7F ∧ m1 = 0x45 ∧ m2 = 0x4C ∧ m3 = 0x46 then Except.ok ()
  else
    Except.error ("Not an ELF file. " ++ (hexFmt m0 ++ " " ++ hexFmt m1
      ++ " " ++ hexFmt m2 ++ " " ++ hexFmt m3))

/-- Elf64Metadata::check_class from src/src/elf.rs lines 452-460: tests
e_ident[4]. -/
def check_class (header : Elf64Header) : Except String Unit :=
  let m0 := header.e_ident.getD 4 0
  if m0 = 2 then Except.ok ()
  else Except.error ("ELF64 required, found: " ++ hexFmt m0)

/-- Elf64Metadata::check_endian from src/src/elf.rs lines 462-470.  The
source slices e_ident[4..5], so the byte tested is e_ident[4] (the class
byte), not e_ident[5] (the data-encoding byte). -/
def check_endian (header : Elf64Header) : Except String Unit :=
  let m0 := header.e_ident.getD 4 0
  if m0 = 2 then Except.ok ()
  else Except.error ("Little Endian required, found: " ++ hexFmt m0)

/-- Elf64Metadata::check_machine from src/src/elf.rs lines 472-479. -/
def check_machine (header : Elf64Header) : Except String Unit :=
  if header.e_machine = 0x3E then Except.ok ()
  else Except.error ("AMD64 expected, found: " ++ hexFmt header.e_machine)

/-- Elf64Metadata::check_header from src/src/elf.rs lines 481-486. -/
def check_header (header : Elf64Header) : Except String Unit := do
  check_file_ident header
  check_class header
  check_endian header
  check_machine header

/-- Elf64Metadata::load_elf_header from src/src/elf.rs lines 488-497: read
the 64-byte header at the current position and reinterpret it (x86-64
little-endian field layout of the repr(C) struct). -/
def load_elf_header (r : ByteReader) :
    Except String (Elf64Header × ByteReader) := do
  let (buf, r) ← r.readExact 64
  Except.ok
    ({ e_ident := buf.take 16,
       e_type := decodeU16 buf 16,
       e_machine := decodeU16 buf 18,
       e_version := decodeU32 buf 20,
       e_entry := decodeU64 buf 24,
       e_program_header_offset := decodeU64 buf 32,
       e_section_header_offset := decodeU64 buf 40,
       e_flags := decodeU32 buf 48,
       e_elf_header_size := decodeU16 buf 52,
       e_program_header_entry_size := decodeU16 buf 54,
       e_program_header_entries := decodeU16 buf 56,
       e_section_header_entry_size := decodeU16 buf 58,
       e_section_header_entries := decodeU16 buf 60,
       e_section_name_string_table_index := decodeU16 buf 62 }, r)

/-- One 56-byte program header record (repr(C) layout of
Elf64ProgramHeader). -/
def decodeProgramHeader (buf : List Nat) : Elf64ProgramHeader :=
  { p_type := decodeU32 buf 0,
    p_flags := decodeU32 buf 4,
    p_offset := decodeU64 buf 8,
    p_virtual_address := decodeU64 buf 16,
    p_physical_address := decodeU64 buf 24,
    p_file_size := decodeU64 buf 32,
    p_memory_size := decodeU64 buf 40,
    p_align := decodeU64 buf 48 }

/-- The read loop of Elf64Metadata::load_program_headers. -/
def readProgramHeaders :
    Nat → ByteReader → Except String (List Elf64ProgramHeader × ByteReader)
  | 0, r => Except.ok ([], r)
  | n + 1, r => do
    let (buf, r) ← r.readExact 56
    let (rest, r) ← readProgramHeaders n r
    Except.ok (decodeProgramHeader buf :: rest, r)

/-- Elf64Metadata::load_program_headers from src/src/elf.rs lines
499-518. -/
def load_program_headers (header : Elf64Header) (r : ByteReader) :
    Except String (List Elf64ProgramHeader × ByteReader) :=
  readProgramHeaders header.e_program_header_entries
    (r.seek header.e_program_header_offset)

/-- One 64-byte section header record (repr(C) layout of
Elf64SectionHeader). -/
def decodeSectionHeader (buf : List Nat) : Elf64SectionHeader :=
  { sh_name := decodeU32 buf 0,
    sh_type := decodeU32 buf 4,
    sh_flags := decodeU64 buf 8,
    sh_virtual_address := decodeU64 buf 16,
    sh_offset := decodeU64 buf 24,
    sh_size := decodeU64 buf 32,
    sh_link := decodeU32 buf 40,
    sh_info := decodeU32 buf 44,
    sh_address_align := decodeU64 buf 48,
    sh_entry_size := decodeU64 buf 56 }

/-- The read loop of Elf64Metadata::load_section_headers. -/
def readSectionHeaders :
    Nat → ByteReader → Except String (List Elf64SectionHeader × ByteReader)
  | 0, r => Except.ok ([], r)
  | n + 1, r => do
    let (buf, r) ← r.readExact 64
    let (rest, r) ← readSectionHeaders n r
    Except.ok (decodeSectionHeader buf :: rest, r)

/-- Elf64Metadata::load_section_headers from src/src/elf.rs lines
520-539. -/
def load_section_headers (header : Elf64Header) (r : ByteReader) :
    Except String (List Elf64SectionHeader × ByteReader) :=
  readSectionHeaders header.e_section_header_entries
    (r.seek header.e_section_header_offset)

/-- The per-entry body of Elf64Metadata::load_symbol_table: read a 24-byte
Elf64SymbolTableEntry, then materialise the name from the section's string
table at st_name (the slice runs to the NUL terminator inclusive; an
out-of-range st_name or an unterminated table is a Rust slice/index panic,
and invalid UTF-8 is an unwrap panic). -/
def readSymbolEntries (section_string_table : List Nat) :
    Nat → ByteReader →
    Except String (List Elf64ResolvedSymbolTableEntry × ByteReader)
  | 0, r => Except.ok ([], r)
  | n + 1, r => do
    let (buf, r) ← r.readExact 24
    let st_name := decodeU32 buf 0
    let st_info := leByte buf 4
    if st_name ≤ section_string_table.length then
      let tail := section_string_table.drop st_name
      let len ← string_length tail
      match from_utf8 (tail.take len) with
      | none => Except.error "panic: invalid utf-8 sequence"
      | some symbol_name => do
        let entry : Elf64ResolvedSymbolTableEntry :=
          { symbol_name := symbol_name,
            binding := st_info / 16,
            symbol_type := st_info % 16,
            section_index := decodeU16 buf 6,
            value := decodeU64 buf 8,
            size := decodeU64 buf 16 }
        let (rest, r) ← readSymbolEntries section_string_table n r
        Except.ok (entry :: rest, r)
    else Except.error "panic: range start index out of range for slice"

/-- The per-section body of Elf64Metadata::load_symbol_table: sections of
the requested type contribute sh_size / 24 entries each, resolving names
through the string table of the section named by sh_link (an out-of-range
sh_link is an unwrap panic). -/
def loadSymbolSections (all : List Elf64SectionHeader) (table_type : Nat) :
    List Elf64SectionHeader → ByteReader →
    Except String (List Elf64ResolvedSymbolTableEntry × ByteReader)
  | [], r => Except.ok ([], r)
  | table :: rest, r =>
    if table.sh_type = table_type then
      match all.get? table.sh_link with
      | none => Except.error "panic: called unwrap on a None value"
      | some linked => do
        let (section_string_table, r) ← get_string_table_content linked r
        let r := r.seek table.sh_offset
        let entries := table.sh_size / 24
        let (es, r) ← readSymbolEntries section_string_table entries r
        let (more, r) ← loadSymbolSections all table_type rest r
        Except.ok (es ++ more, r)
    else loadSymbolSections all table_type rest r

/-- Elf64Metadata::load_symbol_table from src/src/elf.rs lines 541-583. -/
def load_symbol_table (section_headers : List Elf64SectionHeader)
    (r : ByteReader) (table_type : Nat) :
    Except String (List Elf64ResolvedSymbolTableEntry × ByteReader) :=
  loadSymbolSections section_headers table_type section_headers r

/-- The per-entry body of Elf64Metadata::load_relocation_entries: a
24-byte Elf64RelocationAddend, with the read error discarded (readLossy),
and the symbol name copied from the dynamic-symbol-table entry at
info >> 32, degrading to the empty string when that index is out of
range. -/
def readRelocEntries
    (dynamic_symbol_table : List Elf64ResolvedSymbolTableEntry) :
    Nat → ByteReader → List Elf64ResolvedRelocationAddend × ByteReader
  | 0, r => ([], r)
  | n + 1, r =>
    let (buf, r) := r.readLossy 24
    let info := decodeU64 buf 8
    let symbol_table_index := info / 2 ^ 32
    let entry : Elf64ResolvedRelocationAddend :=
      { symbol_name :=
          ((dynamic_symbol_table.get? symbol_table_index).map
            (fun s => s.symbol_name)).getD "",
        symbol_index := symbol_table_index,
        relocation_type := info % 2 ^ 32,
        offset := decodeU64 buf 0,
        addend := decodeI32 buf 16 }
    let (rest, r) := readRelocEntries dynamic_symbol_table n r
    (entry :: rest, r)

/-- The per-section body of Elf64Metadata::load_relocation_entries. -/
def loadRelocSections
    (dynamic_symbol_table : List Elf64ResolvedSymbolTableEntry) :
    List Elf64SectionHeader → ByteReader →
    List Elf64ResolvedRelocationAddend × ByteReader
  | [], r => ([], r)
  | header :: rest, r =>
    if header.sh_type = ELF64_SECTION_HEADER_RELOCATION_ADDEND then
      let r := r.seek header.sh_offset
      let (es, r) :=
        readRelocEntries dynamic_symbol_table (header.sh_size / 24) r
      let (more, r) := loadRelocSections dynamic_symbol_table rest r
      (es ++ more, r)
    else loadRelocSections dynamic_symbol_table rest r

/-- Elf64Metadata::load_relocation_entries from src/src/elf.rs lines
585-619.  The function is infallible in the source (read errors are
discarded); it returns the entry list and the final reader. -/
def load_relocation_entries (section_headers : List Elf64SectionHeader)
    (dynamic_symbol_table : List Elf64ResolvedSymbolTableEntry)
    (r : ByteReader) : List Elf64ResolvedRelocationAddend × ByteReader :=
  loadRelocSections dynamic_symbol_table section_headers r

/-- Elf64Metadata::load from src/src/elf.rs lines 621-647.  The file_path
argument and the dynamic field follow the crate-root draft used by
src/src/loader.rs (Elf64Dynamic is produced separately by
Elf64Dynamic::load); both are irrelevant to the header-validation path. -/
def load (file_path : String) (r : ByteReader) :
    Except String Elf64Metadata := do
  let (elf_header, r) ← load_elf_header r
  check_header elf_header
  let (program_headers, r) ← load_program_headers elf_header r
  let (section_headers, r) ← load_section_headers elf_header r
  let (symbol_table, r) ← load_symbol_table section_headers r
    ELF64_SECTION_HEADER_SYMBOL_TABLE
  let (dynamic_symbol_table, r) ← load_symbol_table section_headers r
    ELF64_SECTION_HEADER_DYNAMIC_SYMBOL_TABLE
  let relocations :=
    (load_relocation_entries section_headers dynamic_symbol_table r).1
  Except.ok
    { file_path := file_path,
      elf_header := elf_header,
      program_headers := program_headers,
      section_headers := section_headers,
      symbol_table := symbol_table,
      dynamic_symbol_table := dynamic_symbol_table,
      relocations := relocations,
      dynamic := { required_libraries := [], init_function := 0,
                   init_array := 0, init_array_size := 0 } }

end Elf64Metadata

/-! ## Segment mapping (src/src/loader.rs, Elf64Loader::load_program_header) -/

/-- align_address from src/src/loader.rs lines 11-18: round the address
down to a multiple of the alignment.  (With alignment 0 the Rust modulo
panics; no loadable segment in the claims has alignment 0.) -/
def align_address (address : Nat) (alignment : Nat) : Nat :=
  let modulo := address % alignment
  if modulo > 0 then address - modulo else address

namespace Elf64Loader

/-- Elf64Loader::round_page_size from src/src/loader.rs lines 322-330; the
page size obtained from sysconf is a parameter. -/
def round_page_size (page_size : Nat) (value : Nat) : Nat :=
  if value % page_size = 0 then value
  else page_size * (value / page_size + 1)

/-- One recorded mmap: the fixed address passed to mmap and the
page-rounded length. -/
structure MappedSegment where
  address : Nat
  length : Nat
deriving DecidableEq

/-- Two mapped segments share at least one byte. -/
def segmentsOverlap (a b : MappedSegment) : Prop :=
  a.address < b.address + b.length ∧ b.address < a.address + a.length

instance (a b : MappedSegment) : Decidable (segmentsOverlap a b) := by
  unfold segmentsOverlap; infer_instance

/-- The address arithmetic of Elf64Loader::load_program_header
(src/src/loader.rs lines 462-506): filter program headers to loadable ones
with nonzero virtual address and file size; for each, compute the aligned
base, the diff, the running last_address (the max of aligned +
p_memory_size), and the page-rounded mmap length; finally advance
base_address to round_page_size(last_address + 1).  Returns the mmap
segments in order and the new base_address.  The mmap call itself, the
protection flags, BSS zeroing and the relocation pass do not affect the
addresses and are omitted here. -/
def load_program_header_segments (page_size : Nat) (base : Nat)
    (elf_metadata : Elf64Metadata) : List MappedSegment × Nat :=
  let program_info :=
    ((elf_metadata.program_headers.filter
        (fun h => decide (h.p_virtual_address ≠ 0))).filter
      (fun h => decide (0 < h.p_file_size))).filter
      (fun h => decide (h.p_type = PROGRAM_HEADER_TYPE_LOADABLE))
  let step := fun (acc : List MappedSegment × Nat)
      (info : Elf64ProgramHeader) =>
    let aligned_address :=
      align_address (info.p_virtual_address + base) info.p_align
    let diff := info.p_virtual_address + base - aligned_address
    let last_address :=
      if aligned_address + info.p_memory_size > acc.2 then
        aligned_address + info.p_memory_size
      else acc.2
    let memory_size := round_page_size page_size (info.p_memory_size + diff)
    (acc.1 ++ [{ address := aligned_address, length := memory_size }],
      last_address)
  let result := program_info.foldl step ([], 0)
  (result.1, round_page_size page_size (result.2 + 1))

end Elf64Loader

/-! ## Search-path loader (src/src/ld_path_loader.rs) -/

/-- LdPathLoader state: the configured directories and the cache HashMap,
embedded as an association list whose most recent binding shadows older
ones (lookup sees exactly what HashMap get would). -/
structure LdPathLoader where
  paths : List String
  libraries : List (String × String)
deriving DecidableEq

namespace LdPathLoader

/-- LdPathLoader::get from src/src/ld_path_loader.rs lines 19-38.  The
filesystem is abstracted: dirEntries gives the paths yielded by
fs::read_dir for a directory (assumed readable, as the expect demands),
and canonicalToStr is fs::canonicalize composed with to_str (canonicalize
assumed to succeed, as the unwrap demands; to_str may be none).  For every
directory entry that canonicalizes, the source inserts key -> absolute
path into the cache and overwrites the result, with no comparison of the
entry's file name against the key. -/
def get (dirEntries : String → List String)
    (canonicalToStr : String → Option String)
    (loader : LdPathLoader) (key : String) :
    Option String × LdPathLoader :=
  match List.lookup key loader.libraries with
  | some value => (some value, loader)
  | none =>
    let step := fun (acc : Option String × List (String × String))
        (path : String) =>
      (dirEntries path).foldl
        (fun acc2 dir_file =>
          match canonicalToStr dir_file with
          | some abs_path => (some abs_path, (key, abs_path) :: acc2.2)
          | none => acc2)
        acc
    let result := loader.paths.foldl step (none, loader.libraries)
    (result.1, { loader with libraries := result.2 })

end LdPathLoader

/-! ## Concrete inputs for the code-bug and parser theorems -/

/-- An ELF header that is valid in magic, class (e_ident[4] = 2) and
machine (0x3E), but whose data-encoding byte e_ident[5] is 2 (ELFDATA2MSB,
big-endian) rather than 1 (little-endian). -/
def bigEndianHeader : Elf64Header :=
  { emptyHeader with
    e_ident := [0x7F, 0x45, 0x4C, 0x46, 2, 2, 0, 0, 0, 0, 0, 0, 0, 0, 0, 0],
    e_machine := 0x3E }

/-- First failing image for the mapping-overlap bug: a single loadable
segment at virtual address 0x1000 with alignment 0x200000 (the alignment
glibc uses for its loadable segments) and memory size 0x100. -/
def imgOverlapOne : Elf64Metadata :=
  { mkImage "one" with
    program_headers :=
      [{ p_type := 1, p_flags := 4, p_offset := 0x1000,
         p_virtual_address := 0x1000, p_physical_address := 0x1000,
         p_file_size := 0x100, p_memory_size := 0x100,
         p_align := 0x200000 }] }

/-- Second failing image: a single loadable page-aligned segment at
virtual address 0x1000. -/
def imgOverlapTwo : Elf64Metadata :=
  { mkImage "two" with
    program_headers :=
      [{ p_type := 1, p_flags := 4, p_offset := 0x1000,
         p_virtual_address := 0x1000, p_physical_address := 0x1000,
         p_file_size := 0x100, p_memory_size := 0x100,
         p_align := 0x1000 }] }

/-- Search-path loader over the single directory /opt/libs, empty cache. -/
def c9Loader : LdPathLoader :=
  { paths := ["/opt/libs"], libraries := [] }

/-- A filesystem in which /opt/libs contains exactly one file,
libm.so.6. -/
def c9DirEntries : String → List String :=
  fun d => if d = "/opt/libs" then ["/opt/libs/libm.so.6"] else []

/-- Canonicalization that succeeds and is the identity (the directory
holds no symlinks). -/
def c9Canonical : String → Option String :=
  fun p => some p

/-- A byte stream for the symbol-table panic: a two-byte string table at
offset 0, and at offset 8 one 24-byte symbol entry whose st_name is 100,
past the end of the string table. -/
def c7Data : List Nat :=
  [65, 0, 0, 0, 0, 0, 0, 0,
   100, 0, 0, 0, 0, 0, 0, 0,
   0, 0, 0, 0, 0, 0, 0, 0,
   0, 0, 0, 0, 0, 0, 0, 0]

/-- Section headers for the symbol-table panic: section 0 is the string
table (offset 0, size 2), section 1 the symbol table (type 2, link 0,
offset 8, one 24-byte entry). -/
def c7Sections : List Elf64SectionHeader :=
  [{ sh_name := 0, sh_type := 3, sh_flags := 0, sh_virtual_address := 0,
     sh_offset := 0, sh_size := 2, sh_link := 0, sh_info := 0,
     sh_address_align := 0, sh_entry_size := 0 },
   { sh_name := 0, sh_type := 2, sh_flags := 0, sh_virtual_address := 0,
     sh_offset := 8, sh_size := 24, sh_link := 0, sh_info := 0,
     sh_address_align := 0, sh_entry_size := 0 }]

/-- A relocation section for the degradation witness: type RELA, one
24-byte entry at offset 0. -/
def c7RelocSections : List Elf64SectionHeader :=
  [{ sh_name := 0, sh_type := 4, sh_flags := 0, sh_virtual_address := 0,
     sh_offset := 0, sh_size := 24, sh_link := 0, sh_info := 0,
     sh_address_align := 0, sh_entry_size := 0 }]

/-- Bytes of one relocation entry with offset 0, info = (5 << 32) | 7
(symbol index 5, type JUMP_SLOT) and addend 0. -/
def c7RelocData : List Nat :=
  [0, 0, 0, 0, 0, 0, 0, 0,
   7, 0, 0, 0, 5, 0, 0, 0,
   0, 0, 0, 0, 0, 0, 0, 0]

/-- The relocation entry produced from c7RelocData against an empty
dynamic-symbol-table: symbol index 5 is out of range, so the name is the
empty string. -/
def c7RelocEntry : Elf64ResolvedRelocationAddend :=
  { symbol_name := "", symbol_index := 5, relocation_type := 7,
    offset := 0, addend := 0 }

/-- Images for the root-last witness: R depends on S, S on nothing. -/
def imgR : Elf64Metadata := mkImage "R"

/-- The single dependency of imgR. -/
def imgS : Elf64Metadata := mkImage "S"

/-- The dependency graph R -> (S), S -> (). -/
def rsDeps (m : Elf64Metadata) : List Elf64Metadata :=
  if m.file_path = "R" then [imgS] else []

/-! ## Concrete inputs for the relocation theorems -/

/-- A concrete global symbol for the versioned-fallback scenario: the
default-global entry for memcpy. -/
def memcpySym : Elf64ResolvedSymbolTableEntry :=
  { symbol_name := "memcpy", binding := 1, symbol_type := 2,
    section_index := 1, value := 0x7fff1000, size := 8 }

/-- A global-symbol map with no entries at all. -/
def gsEmpty : String → Option Elf64ResolvedSymbolTableEntry :=
  fun _ => none

/-- A default-global map holding only memcpy. -/
def dsMemcpy : String → Option Elf64ResolvedSymbolTableEntry :=
  fun n => if n = "memcpy" then some memcpySym else none

/-- A GLOB_DAT relocation referencing the versioned name memcpy at
GLIBC_2.14, targeting offset 0x5000. -/
def relaMemcpy : Elf64ResolvedRelocationAddend :=
  { symbol_name := "memcpy@GLIBC_2.14", symbol_index := 3,
    relocation_type := 6, offset := 0x5000, addend := 0 }

/-- A relocation of the unsupported type R_X86_64_GOTPCREL(9). -/
def relaUnsupported : Elf64ResolvedRelocationAddend :=
  { symbol_name := "foo", symbol_index := 1, relocation_type := 9,
    offset := 0x4000, addend := 0 }

/-- The RELATIVE relocation of spec test 8: offset 0x3000, addend 0x1234. -/
def relaRelative : Elf64ResolvedRelocationAddend :=
  { symbol_name := "", symbol_index := 0, relocation_type := 8,
    offset := 0x3000, addend := 0x1234 }

/-- Boolean string-prefix test over the underlying character lists. -/
def strStartsWith (p s : String) : Bool :=
  p.data.isPrefixOf s.data

/-! ## Theorems -/

/-- C1: for the dependency graph A -> (B, C), B -> (D), C -> (D),
resolve_in_loading_order applied to A returns a load order containing each
of A, B, C, D exactly once, with D before both B and C, and with B and C
before A. -/
theorem c1_diamond_load_order :
    ∃ l, DependenciesResolver.resolve_in_loading_order diamondDeps 10 imgA
        = some l
      ∧ l.count imgA = 1 ∧ l.count imgB = 1 ∧ l.count imgC = 1
      ∧ l.count imgD = 1 ∧ l.length = 4
      ∧ l.indexOf imgD < l.indexOf imgB
      ∧ l.indexOf imgD < l.indexOf imgC
      ∧ l.indexOf imgB < l.indexOf imgA
      ∧ l.indexOf imgC < l.indexOf imgA := by
  refine ⟨[imgD, imgB, imgC, imgA], ?_, ?_⟩
  · rfl
  · decide

/-- C3: for every JUMP_SLOT or GLOB_DAT relocation, the relocation pass
looks the symbol up by its literal name in the global-symbol map; on a miss
it strips the name at the at sign and looks the remainder up in the
default-global map (with default-global map mapping memcpy to V and no
exact entry for the versioned name, resolution yields V); the resolved
symbol's value (the result of invoking it when the symbol is an indirect
function) is written as a 64-bit word at offset + base. -/
theorem c3_jump_slot_glob_dat_resolution (ifunc : Nat → Nat)
    (gs ds : String → Option Elf64ResolvedSymbolTableEntry)
    (rela : Elf64ResolvedRelocationAddend) (offset : Nat)
    (htype : rela.relocation_type = RELOCATION_X86_64_JUMP_SLOT
      ∨ rela.relocation_type = RELOCATION_X86_64_GLOB_DAT) :
    (∀ s, gs rela.symbol_name = some s →
      Elf64Loader.get_symbol gs ds rela = some s)
    ∧ (gs rela.symbol_name = none →
      Elf64Loader.get_symbol gs ds rela
        = ds (Elf64Loader.stripVersion rela.symbol_name))
    ∧ (∀ V, rela.symbol_name = "memcpy@GLIBC_2.14" →
      gs "memcpy@GLIBC_2.14" = none → ds "memcpy" = some V →
      Elf64Loader.get_symbol gs ds rela = some V)
    ∧ (∀ s, Elf64Loader.get_symbol gs ds rela = some s →
      Elf64Loader.relocateOne ifunc gs ds rela offset
        = [Elf64Loader.RelocWrite.word (u64add rela.offset offset)
            (if s.indirect_function then ifunc s.value else s.value)]) := by
  refine ⟨?_, ?_, ?_, ?_⟩
  · intro s hs
    simp [Elf64Loader.get_symbol, hs]
  · intro hn
    simp only [Elf64Loader.get_symbol, hn]
    cases ds (Elf64Loader.stripVersion rela.symbol_name) <;> rfl
  · intro V hname hmiss hdef
    have hstrip : Elf64Loader.stripVersion "memcpy@GLIBC_2.14" = "memcpy" := by
      decide
    simp [Elf64Loader.get_symbol, hname, hmiss, hstrip, hdef]
  · intro s hs
    have h64 : rela.relocation_type ≠ RELOCATION_X86_64_64 := by
      rcases htype with h | h <;> rw [h] <;> decide
    have hrel : ¬(rela.relocation_type = RELOCATION_X86_64_RELATIVE
        ∨ rela.relocation_type = RELOCATION_X86_64_IRELATIV) := by
      rcases htype with h | h <;> rw [h] <;> decide
    have hcopy : rela.relocation_type ≠ RELOCATION_X86_64_COPY := by
      rcases htype with h | h <;> rw [h] <;> decide
    simp [Elf64Loader.relocateOne, htype, h64, hrel, hcopy, hs]

/-- Witness for C3: with an empty global map, a default-global map holding
only memcpy at 0x7fff1000, and a GLOB_DAT relocation naming
memcpy at GLIBC_2.14 targeting offset 0x5000, resolution yields the
default-global entry and the pass writes 0x7fff1000 at 0x25000 for
base 0x20000. -/
theorem c3_witness :
    Elf64Loader.get_symbol gsEmpty dsMemcpy relaMemcpy = some memcpySym
    ∧ Elf64Loader.relocateOne id gsEmpty dsMemcpy relaMemcpy 0x20000
      = [Elf64Loader.RelocWrite.word 0x25000 0x7fff1000] := by
  obtain ⟨h1, h2, h3, h4⟩ :=
    c3_jump_slot_glob_dat_resolution id gsEmpty dsMemcpy relaMemcpy 0x20000
      (Or.inr rfl)
  have hres : Elf64Loader.get_symbol gsEmpty dsMemcpy relaMemcpy
      = some memcpySym := by
    refine h3 memcpySym rfl rfl ?_
    simp [dsMemcpy]
  refine ⟨hres, ?_⟩
  rw [h4 memcpySym hres]
  decide

/-- C5: for every relocation whose type is not one of NONE, 64, COPY,
GLOB_DAT, JUMP_SLOT, RELATIVE, IRELATIVE, and for every 64, COPY, GLOB_DAT
or JUMP_SLOT relocation whose symbol lookup misses in both symbol maps, the
relocation pass performs no write. -/
theorem c5_unsupported_or_missing_no_write (ifunc : Nat → Nat)
    (gs ds : String → Option Elf64ResolvedSymbolTableEntry)
    (rela : Elf64ResolvedRelocationAddend) (offset : Nat)
    (h : rela.relocation_type ∉
        ([RELOCATION_X86_64_NONE, RELOCATION_X86_64_64, RELOCATION_X86_64_COPY,
          RELOCATION_X86_64_GLOB_DAT, RELOCATION_X86_64_JUMP_SLOT,
          RELOCATION_X86_64_RELATIVE, RELOCATION_X86_64_IRELATIV] : List Nat)
      ∨ ((rela.relocation_type = RELOCATION_X86_64_64
          ∨ rela.relocation_type = RELOCATION_X86_64_COPY
          ∨ rela.relocation_type = RELOCATION_X86_64_GLOB_DAT
          ∨ rela.relocation_type = RELOCATION_X86_64_JUMP_SLOT)
        ∧ gs rela.symbol_name = none
        ∧ ds (Elf64Loader.stripVersion rela.symbol_name) = none)) :
    Elf64Loader.relocateOne ifunc gs ds rela offset = [] := by
  rcases h with h | ⟨htype, hgs, hds⟩
  · simp only [List.mem_cons, List.not_mem_nil, or_false, not_or,
      RELOCATION_X86_64_NONE, RELOCATION_X86_64_64, RELOCATION_X86_64_COPY,
      RELOCATION_X86_64_GLOB_DAT, RELOCATION_X86_64_JUMP_SLOT,
      RELOCATION_X86_64_RELATIVE, RELOCATION_X86_64_IRELATIV] at h
    obtain ⟨h0, h1, h5, h6, h7, h8, h37⟩ := h
    simp [Elf64Loader.relocateOne, RELOCATION_X86_64_64, RELOCATION_X86_64_COPY,
      RELOCATION_X86_64_GLOB_DAT, RELOCATION_X86_64_JUMP_SLOT,
      RELOCATION_X86_64_RELATIVE, RELOCATION_X86_64_IRELATIV,
      h1, h5, h6, h7, h8, h37]
  · have hnone : Elf64Loader.get_symbol gs ds rela = none := by
      simp [Elf64Loader.get_symbol, hgs, hds]
    have hrel : ¬(rela.relocation_type = RELOCATION_X86_64_RELATIVE
        ∨ rela.relocation_type = RELOCATION_X86_64_IRELATIV) := by
      rcases htype with h | h | h | h <;> rw [h] <;> decide
    simp only [Elf64Loader.relocateOne, hnone, hrel, if_false]
    rcases htype with h | h | h | h <;>
      simp [h, RELOCATION_X86_64_64, RELOCATION_X86_64_COPY,
        RELOCATION_X86_64_GLOB_DAT, RELOCATION_X86_64_JUMP_SLOT]

/-- Witness for C5: a relocation of unsupported type R_X86_64_GOTPCREL(9)
produces no write, and a GLOB_DAT relocation for a name absent from both
maps produces no write. -/
theorem c5_witness :
    Elf64Loader.relocateOne id gsEmpty gsEmpty relaUnsupported 0x20000 = []
    ∧ Elf64Loader.relocateOne id gsEmpty gsEmpty relaMemcpy 0x20000 = [] := by
  constructor
  · exact c5_unsupported_or_missing_no_write id gsEmpty gsEmpty
      relaUnsupported 0x20000 (Or.inl (by decide))
  · exact c5_unsupported_or_missing_no_write id gsEmpty gsEmpty
      relaMemcpy 0x20000 (Or.inr ⟨by decide, rfl, rfl⟩)

/-- C8: applying a RELATIVE or IRELATIVE relocation writes base + addend as
a signed 64-bit word at address offset + base, with no symbol lookup (the
emitted writes do not depend on the symbol maps). -/
theorem c8_relative_irelative_write (ifunc : Nat → Nat)
    (gs ds : String → Option Elf64ResolvedSymbolTableEntry)
    (rela : Elf64ResolvedRelocationAddend) (offset : Nat)
    (htype : rela.relocation_type = RELOCATION_X86_64_RELATIVE
      ∨ rela.relocation_type = RELOCATION_X86_64_IRELATIV) :
    Elf64Loader.relocateOne ifunc gs ds rela offset
      = [Elf64Loader.RelocWrite.word (u64add rela.offset offset)
          (u64ofInt (toI64 offset + rela.addend))]
    ∧ ∀ gsAlt dsAlt,
      Elf64Loader.relocateOne ifunc gsAlt dsAlt rela offset
        = Elf64Loader.relocateOne ifunc gs ds rela offset := by
  have hjs : ¬(rela.relocation_type = RELOCATION_X86_64_JUMP_SLOT
      ∨ rela.relocation_type = RELOCATION_X86_64_GLOB_DAT) := by
    rcases htype with h | h <;> rw [h] <;> decide
  have h64 : rela.relocation_type ≠ RELOCATION_X86_64_64 := by
    rcases htype with h | h <;> rw [h] <;> decide
  have hcopy : rela.relocation_type ≠ RELOCATION_X86_64_COPY := by
    rcases htype with h | h <;> rw [h] <;> decide
  constructor
  · simp [Elf64Loader.relocateOne, htype, hjs, h64, hcopy]
  · intro gsAlt dsAlt
    simp [Elf64Loader.relocateOne, htype, hjs, h64, hcopy]

/-- Witness for C8, realizing spec test 8: with base 0x20000, addend 0x1234
and offset 0x3000, the pass writes the 64-bit word 0x21234 at address
0x23000. -/
theorem c8_witness :
    Elf64Loader.relocateOne id gsEmpty gsEmpty relaRelative 0x20000
      = [Elf64Loader.RelocWrite.word 0x23000 0x21234] := by
  have h := (c8_relative_irelative_write id gsEmpty gsEmpty relaRelative
    0x20000 (Or.inl rfl)).1
  rw [h]
  decide

/-- C2 (refuting evaluation): two consecutively loaded images whose
segments the code maps to overlapping pages.  The first image's segment
(virtual address 0x1000, alignment 0x200000) is aligned down to address 0
with diff 0x21000, so its mapping covers [0, 0x22000); but last_address
only records aligned + memory_size = 0x100, so the next base becomes
round_up_page(0x101) = 0x1000 and the second image's page-aligned segment
is mapped at [0x2000, 0x3000), inside the first image's pages. -/
theorem c2_consecutive_images_overlap :
    Elf64Loader.load_program_header_segments 4096 0x20000 imgOverlapOne
      = ([{ address := 0, length := 0x22000 }], 0x1000)
    ∧ Elf64Loader.load_program_header_segments 4096 0x1000 imgOverlapTwo
      = ([{ address := 0x2000, length := 0x1000 }], 0x3000)
    ∧ Elf64Loader.segmentsOverlap
        { address := 0, length := 0x22000 }
        { address := 0x2000, length := 0x1000 } := by
  refine ⟨?_, ?_, ?_⟩ <;> decide

/-- C4 (refuting evaluation): an ELF header whose magic, class and machine
are valid but whose data-encoding byte e_ident[5] is 2 (big-endian) passes
check_header, because check_endian tests e_ident[4] (the class byte)
rather than e_ident[5]. -/
theorem c4_big_endian_header_accepted :
    Elf64Metadata.check_header bigEndianHeader = Except.ok ()
    ∧ bigEndianHeader.e_ident.getD 5 0 ≠ 1 := by
  exact ⟨rfl, by decide⟩

/-- C9 (refuting evaluation): with /opt/libs containing only libm.so.6,
get applied to the unrelated name libc.so.6 returns the canonicalized path
of libm.so.6 (and caches it under libc.so.6), because the source never
compares directory entries against the requested name; the claim requires
None when no file named libc.so.6 exists. -/
theorem c9_get_returns_unrelated_file :
    (LdPathLoader.get c9DirEntries c9Canonical c9Loader "libc.so.6").1
      = some "/opt/libs/libm.so.6"
    ∧ (∀ d ∈ c9Loader.paths, ∀ f ∈ c9DirEntries d,
        f ≠ "/opt/libs/libc.so.6")
    ∧ (LdPathLoader.get c9DirEntries c9Canonical c9Loader
        "libc.so.6").2.libraries
      = [("libc.so.6", "/opt/libs/libm.so.6")] := by
  refine ⟨?_, ?_, ?_⟩ <;> decide

/-- Bind of a successful Except computation reduces to the continuation. -/
theorem exceptBindOk {ε α β : Type} (a : α) (f : α → Except ε β) :
    (Except.ok a >>= f) = f a := rfl

/-- Bind of a failed Except computation propagates the error. -/
theorem exceptBindErr {ε α β : Type} (e : ε) (f : α → Except ε β) :
    ((Except.error e : Except ε α) >>= f) = Except.error e := rfl

/-- check_file_ident rejects a header whose first four identification
bytes are not the ELF magic, with the Not-an-ELF message. -/
theorem check_file_ident_reject (header : Elf64Header)
    (h : ¬(header.e_ident.getD 0 0 = 0x7F ∧ header.e_ident.getD 1 0 = 0x45
      ∧ header.e_ident.getD 2 0 = 0x4C ∧ header.e_ident.getD 3 0 = 0x46)) :
    Elf64Metadata.check_file_ident header
      = Except.error ("Not an ELF file. "
          ++ (Elf64Metadata.hexFmt (header.e_ident.getD 0 0) ++ " "
            ++ Elf64Metadata.hexFmt (header.e_ident.getD 1 0) ++ " "
            ++ Elf64Metadata.hexFmt (header.e_ident.getD 2 0) ++ " "
            ++ Elf64Metadata.hexFmt (header.e_ident.getD 3 0))) := by
  simp only [Elf64Metadata.check_file_ident]
  rw [if_neg h]

/-- check_header propagates a check_file_ident failure unchanged. -/
theorem check_header_propagates (header : Elf64Header) (msg : String)
    (h : Elf64Metadata.check_file_ident header = Except.error msg) :
    Elf64Metadata.check_header header = Except.error msg := by
  unfold Elf64Metadata.check_header
  rw [h]
  rfl

/-- C6 (amended): a byte sequence of at least the 64-byte header size whose
first four bytes differ from 7F 45 4C 46 makes Elf64Metadata::load fail
with the Not-an-ELF-file error; a sequence shorter than the header makes it
fail with the read error instead. -/
theorem c6_wrong_magic_not_elf_error :
    (∀ (path : String) (a b c d : Nat) (t : List Nat),
      60 ≤ t.length →
      ¬(a = 0x7F ∧ b = 0x45 ∧ c = 0x4C ∧ d = 0x46) →
      ∃ rest, Elf64Metadata.load path (ByteReader.mk (a :: b :: c :: d :: t) 0)
        = Except.error ("Not an ELF file. " ++ rest))
    ∧ (∀ (path : String) (bytes : List Nat),
      bytes.length < 64 →
      Elf64Metadata.load path (ByteReader.mk bytes 0)
        = Except.error "Unable to read file: failed to fill whole buffer") := by
  constructor
  · intro path a b c d t ht hm
    have hcond : (0 : Nat) + 64 ≤ (a :: b :: c :: d :: t).length := by
      simp only [List.length_cons]
      omega
    refine ⟨Elf64Metadata.hexFmt a ++ " " ++ Elf64Metadata.hexFmt b ++ " "
      ++ Elf64Metadata.hexFmt c ++ " " ++ Elf64Metadata.hexFmt d, ?_⟩
    unfold Elf64Metadata.load Elf64Metadata.load_elf_header ByteReader.readExact
    rw [if_pos hcond, exceptBindOk]
    dsimp only
    rw [exceptBindOk]
    rw [check_header_propagates _ _ (check_file_ident_reject _ ?_)]
    · rw [exceptBindErr]
      rfl
    · exact hm
  · intro path bytes hlen
    have hcond : ¬((0 : Nat) + 64 ≤ bytes.length) := by omega
    unfold Elf64Metadata.load Elf64Metadata.load_elf_header ByteReader.readExact
    rw [if_neg hcond]
    rfl

/-- Witness for C6: a 64-byte all-zero stream fails with the
Not-an-ELF-file error. -/
theorem c6_witness :
    ∃ rest, Elf64Metadata.load "file"
      (ByteReader.mk (0 :: 0 :: 0 :: 0 :: List.replicate 60 0) 0)
      = Except.error ("Not an ELF file. " ++ rest) :=
  c6_wrong_magic_not_elf_error.1 "file" 0 0 0 0 (List.replicate 60 0)
    (by decide) (by decide)

/-- C6 (counterexample): a four-byte stream whose bytes differ from the ELF
magic makes Elf64Metadata::load fail with the read error, not the
Not-an-ELF-file error, contradicting the claim's parenthetical that
sequences shorter than the fixed-size header also produce the
Not-an-ELF-file error. -/
theorem c6_short_input_read_error :
    Elf64Metadata.load "file" (ByteReader.mk [0, 0, 0, 0] 0)
      = Except.error "Unable to read file: failed to fill whole buffer"
    ∧ strStartsWith "Not an ELF file"
        "Unable to read file: failed to fill whole buffer" = false := by
  exact ⟨rfl, by decide⟩

/-- Entries read by the relocation-entry loop whose symbol index lies past
the end of the dynamic-symbol-table carry the empty string as name. -/
theorem readRelocEntries_oob_name
    (dynamic_symbol_table : List Elf64ResolvedSymbolTableEntry) :
    ∀ (n : Nat) (r : ByteReader) (e : Elf64ResolvedRelocationAddend),
      e ∈ (Elf64Metadata.readRelocEntries dynamic_symbol_table n r).1 →
      dynamic_symbol_table.length ≤ e.symbol_index →
      e.symbol_name = "" := by
  intro n
  induction n with
  | zero =>
    intro r e hmem
    simp [Elf64Metadata.readRelocEntries] at hmem
  | succ n ih =>
    intro r e hmem hle
    simp only [Elf64Metadata.readRelocEntries, List.mem_cons] at hmem
    rcases hmem with rfl | hmem
    · simp only at hle ⊢
      rw [List.get?_eq_none.mpr hle]
      rfl
    · exact ih _ e hmem hle

/-- The per-section relocation loader preserves the empty-name degradation
for out-of-range symbol indices. -/
theorem loadRelocSections_oob_name
    (dynamic_symbol_table : List Elf64ResolvedSymbolTableEntry) :
    ∀ (sections : List Elf64SectionHeader) (r : ByteReader)
      (e : Elf64ResolvedRelocationAddend),
      e ∈ (Elf64Metadata.loadRelocSections dynamic_symbol_table sections r).1 →
      dynamic_symbol_table.length ≤ e.symbol_index →
      e.symbol_name = "" := by
  intro sections
  induction sections with
  | nil =>
    intro r e hmem
    simp [Elf64Metadata.loadRelocSections] at hmem
  | cons header rest ih =>
    intro r e hmem hle
    simp only [Elf64Metadata.loadRelocSections] at hmem
    by_cases hty : header.sh_type = ELF64_SECTION_HEADER_RELOCATION_ADDEND
    · rw [if_pos hty] at hmem
      simp only [List.mem_append] at hmem
      rcases hmem with hmem | hmem
      · exact readRelocEntries_oob_name dynamic_symbol_table _ _ e hmem hle
      · exact ih _ e hmem hle
    · rw [if_neg hty] at hmem
      exact ih _ e hmem hle

/-- C7 (amended): a relocation entry whose symbol index lies past the end
of the dynamic-symbol-table gets the empty string as its name and loading
continues (load_relocation_entries is infallible); a symbol-table entry
whose st_name lies past the end of the associated string table, however,
is a Rust slice panic: load_symbol_table fails rather than degrading. -/
theorem c7_name_degradation :
    (∀ (section_headers : List Elf64SectionHeader)
      (dynamic_symbol_table : List Elf64ResolvedSymbolTableEntry)
      (r : ByteReader) (e : Elf64ResolvedRelocationAddend),
      e ∈ (Elf64Metadata.load_relocation_entries section_headers
        dynamic_symbol_table r).1 →
      dynamic_symbol_table.length ≤ e.symbol_index →
      e.symbol_name = "")
    ∧ Elf64Metadata.load_symbol_table c7Sections (ByteReader.mk c7Data 0) 2
      = Except.error "panic: range start index out of range for slice" := by
  constructor
  · intro section_headers dynamic_symbol_table r e hmem hle
    exact loadRelocSections_oob_name dynamic_symbol_table section_headers
      r e hmem hle
  · rfl

/-- Witness for C7: the concrete relocation entry with symbol index 5 read
against an empty dynamic-symbol-table is produced with the empty name. -/
theorem c7_witness :
    c7RelocEntry ∈ (Elf64Metadata.load_relocation_entries c7RelocSections []
      (ByteReader.mk c7RelocData 0)).1
    ∧ c7RelocEntry.symbol_name = "" := by
  refine ⟨by decide, ?_⟩
  exact c7_name_degradation.1 c7RelocSections [] (ByteReader.mk c7RelocData 0)
    c7RelocEntry (by decide) (by decide)

/-- C7 (counterexample): parsing a symbol table whose single entry has
st_name = 100 against a 2-byte string table fails with a panic instead of
degrading the name to the empty string, refuting the claim that such
out-of-range name indices never make parsing fail. -/
theorem c7_out_of_range_st_name_fails :
    Elf64Metadata.load_symbol_table c7Sections (ByteReader.mk c7Data 0) 2
      = Except.error "panic: range start index out of range for slice" := by
  rfl

/-- The resolver loop only prepends to the intermediate deque: its result
extends the initial deque contents on the left. -/
theorem resolveLoop_suffix (deps : Elf64Metadata → List Elf64Metadata) :
    ∀ (fuel : Nat) (queue acc out : List Elf64Metadata),
      DependenciesResolver.resolveLoop deps fuel queue acc = some out →
      ∃ pre, out = pre ++ acc := by
  intro fuel
  induction fuel with
  | zero =>
    intro queue acc out h
    cases queue with
    | nil =>
      simp only [DependenciesResolver.resolveLoop, Option.some.injEq] at h
      exact ⟨[], by simp [h]⟩
    | cons e rest =>
      simp [DependenciesResolver.resolveLoop] at h
  | succ n ih =>
    intro queue acc out h
    cases queue with
    | nil =>
      simp only [DependenciesResolver.resolveLoop, Option.some.injEq] at h
      exact ⟨[], by simp [h]⟩
    | cons e rest =>
      simp only [DependenciesResolver.resolveLoop] at h
      obtain ⟨pre, hpre⟩ := ih _ _ _ h
      exact ⟨pre ++ [e], by simpa [List.append_assoc] using hpre⟩

/-- Deduplication keeps a final element whose path occurs neither in the
seen set nor among the earlier elements, and keeps it last. -/
theorem dedupByPath_append_singleton (root : Elf64Metadata) :
    ∀ (pre : List Elf64Metadata) (seen : List String),
      root.file_path ∉ seen →
      (∀ x ∈ pre, x.file_path ≠ root.file_path) →
      DependenciesResolver.dedupByPath seen (pre ++ [root])
        = DependenciesResolver.dedupByPath seen pre ++ [root] := by
  intro pre
  induction pre with
  | nil =>
    intro seen hseen _
    simp [DependenciesResolver.dedupByPath, hseen]
  | cons x xs ih =>
    intro seen hseen hpre
    simp only [List.cons_append, DependenciesResolver.dedupByPath]
    by_cases hx : x.file_path ∈ seen
    · rw [if_pos hx, if_pos hx]
      exact ih seen hseen (fun y hy => hpre y (List.mem_cons_of_mem _ hy))
    · rw [if_neg hx, if_neg hx]
      rw [List.append_eq, ih (x.file_path :: seen) ?_ ?_]
      · simp
      · simp only [List.mem_cons, not_or]
        refine ⟨?_, hseen⟩
        intro hcontr
        exact hpre x (List.mem_cons_self _ _) (by rw [hcontr])
      · exact fun y hy => hpre y (List.mem_cons_of_mem _ hy)

/-- Every element surviving deduplication was present in the input. -/
theorem dedupByPath_subset :
    ∀ (l : List Elf64Metadata) (seen : List String) (x : Elf64Metadata),
      x ∈ DependenciesResolver.dedupByPath seen l → x ∈ l := by
  intro l
  induction l with
  | nil =>
    intro seen x hmem
    simp [DependenciesResolver.dedupByPath] at hmem
  | cons y ys ih =>
    intro seen x hmem
    simp only [DependenciesResolver.dedupByPath] at hmem
    by_cases hy : y.file_path ∈ seen
    · rw [if_pos hy] at hmem
      exact List.mem_cons_of_mem _ (ih seen x hmem)
    · rw [if_neg hy] at hmem
      rcases List.mem_cons.mp hmem with rfl | hmem
      · exact List.mem_cons_self _ _
      · exact List.mem_cons_of_mem _ (ih _ x hmem)

/-- C10: for every root image whose file path differs from the file path
of every image reached while resolving its transitive dependencies (the
entries accumulated by the traversal loop, which form all but the last
element of the intermediate deque), resolve_in_loading_order returns a
list in which the root image appears exactly once, as the last element. -/
theorem c10_root_unique_last (deps : Elf64Metadata → List Elf64Metadata)
    (fuel : Nat) (root : Elf64Metadata) (libs : List Elf64Metadata)
    (hloop : DependenciesResolver.resolveLoop deps fuel
      (DependenciesResolver.add_front [] (deps root)) [root] = some libs)
    (hfresh : ∀ x ∈ libs.dropLast, x.file_path ≠ root.file_path) :
    ∃ out,
      DependenciesResolver.resolve_in_loading_order deps fuel root = some out
      ∧ out.getLast? = some root
      ∧ out.count root = 1 := by
  obtain ⟨pre, rfl⟩ := resolveLoop_suffix deps fuel _ _ _ hloop
  have hpre : ∀ x ∈ pre, x.file_path ≠ root.file_path := by
    intro x hx
    exact hfresh x (by simpa [List.dropLast_concat] using hx)
  have hded : DependenciesResolver.dedupByPath [] (pre ++ [root])
      = DependenciesResolver.dedupByPath [] pre ++ [root] :=
    dedupByPath_append_singleton root pre [] (by simp) hpre
  refine ⟨DependenciesResolver.dedupByPath [] pre ++ [root], ?_, ?_, ?_⟩
  · unfold DependenciesResolver.resolve_in_loading_order
    rw [hloop]
    exact congrArg some hded
  · exact List.getLast?_concat _
  · rw [List.count_append]
    have h0 : (DependenciesResolver.dedupByPath [] pre).count root = 0 := by
      rw [List.count_eq_zero]
      intro hmem
      exact hpre root (dedupByPath_subset _ _ _ hmem) rfl
    rw [h0]
    simp

/-- Witness for C10: for the graph R -> (S), S -> (), the traversal deque
is [S, R], S's path differs from R's, and the final order has R exactly
once, last. -/
theorem c10_witness :
    ∃ out,
      DependenciesResolver.resolve_in_loading_order rsDeps 4 imgR = some out
      ∧ out.getLast? = some imgR
      ∧ out.count imgR = 1 :=
  c10_root_unique_last rsDeps 4 imgR [imgS, imgR] (by rfl) (by decide)
